import Mathlib

/-!
Verification of the Zenith NPC generator service pipeline:
prompt construction, oracle-output parsing/validation, persistence,
and the two transport adapters (synchronous HTTP and Dapr pub/sub).
All definitions are shallow embeddings of the Python sources under src/.
-/

namespace Zenith

/-- Characters appearing in the prompt and in oracle outputs that the
token rules keep out of literals. -/
def lbrace : Char := '\x7b'

def rbrace : Char := '\x7d'

def lbraceS : String := String.singleton lbrace

def rbraceS : String := String.singleton rbrace

/-- The `models/npc.py` `NPC` model: the six required character fields.  In
pydantic all six are required and non-nullable, so a value of this
type is exactly a validated record. -/
structure NPC where
  Name : String
  Age : Int
  Species : String
  PhysicalDescription : String
  PersonalityDescription : String
  ResidentDistrict : String
deriving DecidableEq, Repr

/-- The `models/npc.py` `NPCGenerationRequest` model. -/
structure NPCGenerationRequest where
  count : Nat := 1
  species_preference : Option String := none
  district_preference : Option String := none
  age_range : Option String := none
deriving DecidableEq, Repr

/-- Python truthiness of an `Optional[str]`: `None` and the empty
string are falsy, every other string truthy. -/
def truthy : Option String → Bool
  | none => false
  | some s => !(s == "")

/-- The fixed scenario framing of `generate_npc_prompt`
(azure_openai_service.py lines 26-44), byte for byte, including the
indentation that the Python triple-quoted literal carries. -/
def promptBase : String :=
  "Generate a unique NPC (Non-Player Character) for a fantasy mega city named Zenith. \n"
  ++ "        Please provide the information in JSON format with the following exact structure:\n"
  ++ "\n"
  ++ "        " ++ lbraceS ++ "\n"
  ++ "            \"Name\": \"Character\x27s full name\",\n"
  ++ "            \"Age\": numeric_age,\n"
  ++ "            \"Species\": \"Species/Race name\",\n"
  ++ "            \"PhysicalDescription\": \"Detailed physical appearance description\",\n"
  ++ "            \"PersonalityDescription\": \"Detailed personality traits and characteristics\",\n"
  ++ "            \"ResidentDistrict\": \"The district or area where they live\"\n"
  ++ "        " ++ rbraceS ++ "\n"
  ++ "\n"
  ++ "        Guidelines:\n"
  ++ "        - Make each character unique and interesting\n"
  ++ "        - Physical descriptions should be vivid and detailed (2-3 sentences)\n"
  ++ "        - Personality descriptions should include quirks, motivations, and behavioral traits\n"
  ++ "        - Districts can be fantasy/sci-fi themed (e.g., \"Merchant Quarter\", \"Tech District\", \"Mystic Gardens\")\n"
  ++ "        - Species can be fantasy races (elves, dwarves, orcs) or sci-fi aliens\n"
  ++ "        "

/-- Embedding of `generate_npc_prompt` (azure_openai_service.py lines 21-56):
fixed framing, then one constraint line per truthy preference in the
fixed order species, district, age range, then the fixed closing
instruction. -/
def generate_npc_prompt (species_preference district_preference age_range : Option String) :
    String :=
  let base_prompt := promptBase
  let base_prompt :=
    if truthy species_preference then
      base_prompt ++ "\n- Species should be: " ++ species_preference.getD ""
    else base_prompt
  let base_prompt :=
    if truthy district_preference then
      base_prompt ++ "\n- Resident District should be: " ++ district_preference.getD ""
    else base_prompt
  let base_prompt :=
    if truthy age_range then
      base_prompt ++ "\n- Age should be in range: " ++ age_range.getD ""
    else base_prompt
  base_prompt ++ "\n\nReturn ONLY the JSON object, no additional text."

/-- Boolean substring test on character lists. -/
def listInfix (pat : List Char) : List Char → Bool
  | [] => pat.isEmpty
  | c :: t => pat.isPrefixOf (c :: t) || listInfix pat t

/-- Boolean substring test on strings. -/
def strContains (s pat : String) : Bool := listInfix pat.toList s.toList

set_option maxRecDepth 8000

/-! ### Oracle output parsing and validation (azure_openai_service.py `generate_npc`) -/

/-- A JSON value as returned by `json.loads`, restricted to the shapes
the record schema can mention; `jOther` stands for any other JSON shape
(arrays, nested objects), which pydantic validation rejects for these
fields. -/
inductive JValue where
  | jNull
  | jBool (b : Bool)
  | jNum (n : Int)
  | jStr (s : String)
  | jOther
deriving DecidableEq, Repr

/-- A parsed JSON object: association list of fields. -/
abbrev JObject := List (String × JValue)

/-- Field lookup in a parsed JSON object (Python dict access). -/
def jObjGet (o : JObject) (k : String) : Option JValue :=
  (o.find? (fun p => p.1 == k)).map (fun p => p.2)

/-- Pydantic validation `NPC(**npc_data)` (models/npc.py): all six
fields must be present with the declared type; a missing field, a null,
or a wrongly-shaped value raises, which `generate_npc` turns into
`None`.  Extra keys are ignored (pydantic default). -/
def NPC.validate (o : JObject) : Option NPC :=
  match jObjGet o "Name", jObjGet o "Age", jObjGet o "Species",
        jObjGet o "PhysicalDescription", jObjGet o "PersonalityDescription",
        jObjGet o "ResidentDistrict" with
  | some (.jStr name), some (.jNum age), some (.jStr species),
    some (.jStr phys), some (.jStr pers), some (.jStr dist) =>
      some { Name := name, Age := age, Species := species, PhysicalDescription := phys,
             PersonalityDescription := pers, ResidentDistrict := dist }
  | _, _, _, _, _, _ => none

/-- Pydantic `NPC.model_dump()`: the dict form of a record. -/
def NPC.model_dump (npc : NPC) : JObject :=
  [("Name", .jStr npc.Name), ("Age", .jNum npc.Age), ("Species", .jStr npc.Species),
   ("PhysicalDescription", .jStr npc.PhysicalDescription),
   ("PersonalityDescription", .jStr npc.PersonalityDescription),
   ("ResidentDistrict", .jStr npc.ResidentDistrict)]

/-- Outcome of one oracle (Azure OpenAI chat completion) call: either
returned text, or a raised transport/auth/rate-limit exception. -/
inductive OracleResult where
  | ok (content : List Char)
  | failure (msg : String)

/-- Python `str.strip()` on a character list. -/
def pyStrip (l : List Char) : List Char :=
  ((l.dropWhile Char.isWhitespace).reverse.dropWhile Char.isWhitespace).reverse

/-- The response clean-up of `generate_npc` (azure_openai_service.py
lines 83-90): strip, drop a leading "```json" fence marker, drop a
trailing "```" fence marker, strip again. -/
def clean_content (raw : List Char) : List Char :=
  let content := pyStrip raw
  let content := if "```json".toList.isPrefixOf content then content.drop 7 else content
  let content := if "```".toList.isSuffixOf content then content.take (content.length - 3) else content
  pyStrip content

/-- Embedding of `generate_npc` (azure_openai_service.py lines 58-105), with the
external collaborators abstracted: `json_loads` is Python's JSON
parser, `resp` the oracle call outcome.  A raised oracle exception, a
JSON parse failure, or a pydantic validation failure each produce
`none`; the prompt is built exactly as in the source and handed to the
oracle. -/
def generate_npc (json_loads : List Char → Option JObject) (resp : OracleResult)
    (species_preference district_preference age_range : Option String) : Option NPC :=
  let _prompt := generate_npc_prompt species_preference district_preference age_range
  match resp with
  | .failure _ => none
  | .ok raw =>
    let content := clean_content raw
    match json_loads content with
    | none => none
    | some npc_data => NPC.validate npc_data

/-- Embedding of `generate_multiple_npcs` (azure_openai_service.py lines 107-121):
`count` sequential `generate_npc` calls (the `i`-th call observing the
`i`-th oracle outcome), appending each success, skipping each failure. -/
def generate_multiple_npcs (json_loads : List Char → Option JObject)
    (oracle : Nat → OracleResult) (count : Nat)
    (species_preference district_preference age_range : Option String) : List NPC :=
  (List.range count).foldl (fun npcs i =>
    match generate_npc json_loads (oracle i) species_preference district_preference age_range with
    | some npc => npcs ++ [npc]
    | none => npcs) []

/-! ### Persistence (npc_storage_service.py) -/

/-- A document in the MongoDB "NPCs" collection, discriminated by its
`_type` field: an individual record write carries the six record fields
plus `_created_at`, a collection write carries `generated_at`, `count`
and the verbatim record list (npc_storage_service.py lines 38-41 and
72-79).  `id` is the store-assigned `_id`. -/
inductive StoreDoc where
  | individual (id : Nat) (created_at : Nat) (npc : NPC)
  | collection (id : Nat) (created_at : Nat) (generated_at : Nat) (count : Nat) (npcs : List NPC)
deriving DecidableEq, Repr

/-- The MongoDB collection state: the stored documents, plus the
external fault schedule (`faults k = true` means the `k`-th
`insert_one` call raises) and the number of insert calls issued so
far. -/
structure MongoState where
  docs : List StoreDoc := []
  faults : Nat → Bool := fun _ => false
  calls : Nat := 0

/-- MongoDB `collection.insert_one`: assigns the next `_id` and appends the
document, or raises (modelled as `none`) per the fault schedule. -/
def insert_one (st : MongoState) (mk : Nat → StoreDoc) : MongoState × Option Nat :=
  if st.faults st.calls then
    ({ st with calls := st.calls + 1 }, none)
  else
    let id := st.docs.length
    ({ st with docs := st.docs ++ [mk id], calls := st.calls + 1 }, some id)

/-- Embedding of `save_npc` (npc_storage_service.py lines 34-52): one
individual-kind insert; an insert failure propagates (`none`). -/
def save_npc (st : MongoState) (now : Nat) (npc : NPC) : MongoState × Option Nat :=
  insert_one st (fun id => .individual id now npc)

/-- Embedding of `save_npcs_batch` (npc_storage_service.py lines 54-66): one
`save_npc` per record in order; a failed save is logged and skipped,
the loop never raises and returns the ids that succeeded. -/
def save_npcs_batch (st : MongoState) (now : Nat) (npcs : List NPC) :
    MongoState × List Nat :=
  npcs.foldl (fun acc npc =>
    match save_npc acc.1 now npc with
    | (st', some id) => (st', acc.2 ++ [id])
    | (st', none) => (st', acc.2)) (st, [])

/-- Embedding of `save_npcs_collection` (npc_storage_service.py lines 68-90): one
collection-kind insert holding all records verbatim with their count;
an insert failure propagates (`none`). -/
def save_npcs_collection (st : MongoState) (now : Nat) (npcs : List NPC) :
    MongoState × Option Nat :=
  insert_one st (fun id => .collection id now now npcs.length npcs)

/-- Embedding of `get_all_npcs` (npc_storage_service.py lines 92-110): all
individual-kind documents, with the storage metadata (`_id`,
`_created_at`, `_type`) popped, so each returned dict is exactly the
six record fields. -/
def get_all_npcs (st : MongoState) : List JObject :=
  st.docs.filterMap (fun d =>
    match d with
    | .individual _ _ npc => some npc.model_dump
    | .collection _ _ _ _ _ => none)

/-! ### Synchronous transport (app.py `/generate-npcs` route) -/

/-- The JSON body/status returned by the `/generate-npcs` route. -/
inductive NpcsEndpointResult where
  | ok (generated_count requested_count : Nat) (npcs : List NPC)
      (individual_files : List Nat) (collection_file : Nat)
  | err (status : Nat) (msg : String)
deriving DecidableEq, Repr

/-- The `/generate-npcs` handler `generate_multiple_npcs` (app.py lines
72-106): generate, return a 500 error with "Failed to generate any
NPCs" when nothing was generated (before any storage call), otherwise
save individually and as a collection; a raised storage error on the
collection write falls into the route's except branch (500). -/
def app_generate_npcs (json_loads : List Char → Option JObject) (oracle : Nat → OracleResult)
    (req : NPCGenerationRequest) (st : MongoState) (now : Nat) :
    NpcsEndpointResult × MongoState :=
  let npcs := generate_multiple_npcs json_loads oracle req.count
    req.species_preference req.district_preference req.age_range
  if npcs.isEmpty then (.err 500 "Failed to generate any NPCs", st)
  else
    let batch := save_npcs_batch st now npcs
    match save_npcs_collection batch.1 now npcs with
    | (st2, some collection_id) =>
        (.ok npcs.length req.count npcs batch.2 collection_id, st2)
    | (st2, none) => (.err 500 "storage error", st2)

/-! ### Asynchronous transport (dapr_app.py) -/

/-- The protobuf `NPCGenerationRequest` embedded in a topic message;
the three preferences are proto3 optional fields (`HasField`). -/
structure PbGenerationRequest where
  count : Nat := 0
  species_preference : Option String := none
  district_preference : Option String := none
  age_range : Option String := none
deriving DecidableEq, Repr

/-- A decoded `GenerateNPCTopicMessage` envelope. -/
structure GenerateNPCTopicMessage where
  request_id : String
  response_topic : String
  request : PbGenerationRequest
deriving DecidableEq, Repr

/-- The protobuf (transport-shaped) `NPC` message. -/
structure PbNPC where
  name : String
  age : Int
  species : String
  physical_description : String
  personality_description : String
  resident_district : String
deriving DecidableEq, Repr

/-- The pydantic-to-protobuf record conversion (dapr_app.py lines
168-177). -/
def NPC.toPb (npc : NPC) : PbNPC :=
  { name := npc.Name, age := npc.Age, species := npc.Species,
    physical_description := npc.PhysicalDescription,
    personality_description := npc.PersonalityDescription,
    resident_district := npc.ResidentDistrict }

/-- The protobuf `NPCGenerationResponse` (dapr_app.py lines 179-194);
`collection_file` and `error` are unset unless assigned. -/
structure NPCGenerationResponse where
  success : Bool
  npcs : List PbNPC := []
  generated_count : Nat
  requested_count : Nat
  individual_files : List Nat := []
  collection_file : Option Nat := none
  error : Option String := none
deriving DecidableEq, Repr

/-- The published `NPCGenerationTopicResponse`: the original request id
plus the response payload. -/
structure NPCGenerationTopicResponse where
  request_id : String
  response : NPCGenerationResponse
deriving DecidableEq, Repr

/-- What a run of the topic handler produced: the events published to
the bus (topic, payload), the final store, and the HTTP status returned
to Dapr. -/
structure DaprHandlerOutput where
  published : List (String × NPCGenerationTopicResponse)
  store : MongoState
  http_status : Nat

/-- The generation step of the topic handler (dapr_app.py lines
144-159): a `count == 1` request goes through a single `generate_npc`
call, anything else through `generate_multiple_npcs`. -/
def dapr_generate (json_loads : List Char → Option JObject) (oracle : Nat → OracleResult)
    (req : PbGenerationRequest) : List NPC :=
  if req.count == 1 then
    match generate_npc json_loads (oracle 0)
        req.species_preference req.district_preference req.age_range with
    | some npc => [npc]
    | none => []
  else
    generate_multiple_npcs json_loads oracle req.count
      req.species_preference req.district_preference req.age_range

/-- Embedding of `npc_generation_request_handler` (dapr_app.py lines 97-240) after a
successfully decoded envelope: generate; on ≥1 record save the batch
and — only when more than one record — the collection, then publish a
success response; on zero records publish a failure response with
"Failed to generate any NPCs"; a raised storage error on the collection
write falls into the outer except branch, which publishes a best-effort
error response and returns 500.  Exactly one event is published to the
envelope's `response_topic`, tagged with its `request_id`. -/
def npc_generation_request_handler (json_loads : List Char → Option JObject)
    (oracle : Nat → OracleResult) (msg : GenerateNPCTopicMessage)
    (st : MongoState) (now : Nat) : DaprHandlerOutput :=
  let request_id := msg.request_id
  let generation_request := msg.request
  let response_topic := msg.response_topic
  let npcs := dapr_generate json_loads oracle generation_request
  if npcs.isEmpty then
    let response : NPCGenerationResponse :=
      { success := false, generated_count := 0,
        requested_count := generation_request.count,
        error := some "Failed to generate any NPCs" }
    { published := [(response_topic, { request_id := request_id, response := response })],
      store := st, http_status := 200 }
  else
    let batch := save_npcs_batch st now npcs
    if 1 < npcs.length then
      match save_npcs_collection batch.1 now npcs with
      | (st2, some collection_id) =>
          let response : NPCGenerationResponse :=
            { success := true, npcs := npcs.map NPC.toPb,
              generated_count := npcs.length,
              requested_count := generation_request.count,
              individual_files := batch.2,
              collection_file := some collection_id }
          { published := [(response_topic, { request_id := request_id, response := response })],
            store := st2, http_status := 200 }
      | (st2, none) =>
          let error_response : NPCGenerationResponse :=
            { success := false, generated_count := 0, requested_count := 0,
              error := some "storage error" }
          { published := [(response_topic, { request_id := request_id, response := error_response })],
            store := st2, http_status := 500 }
    else
      let response : NPCGenerationResponse :=
        { success := true, npcs := npcs.map NPC.toPb,
          generated_count := npcs.length,
          requested_count := generation_request.count,
          individual_files := batch.2,
          collection_file := none }
      { published := [(response_topic, { request_id := request_id, response := response })],
        store := batch.1, http_status := 200 }

/-! ### Helper definitions for the statements -/

/-- A field is present and non-null in a parsed record dict. -/
def fieldOk (o : JObject) (k : String) : Prop :=
  ∃ v, jObjGet o k = some v ∧ v ≠ JValue.jNull

/-- The CharacterRecord invariant: all six fields present and
individually non-null. -/
def recordInvariant (o : JObject) : Prop :=
  fieldOk o "Name" ∧ fieldOk o "Age" ∧ fieldOk o "Species" ∧
  fieldOk o "PhysicalDescription" ∧ fieldOk o "PersonalityDescription" ∧
  fieldOk o "ResidentDistrict"

/-- The backtick character. -/
def btick : Char := '\x60'

/-- Oracle output wrapped in leading/trailing code-fence markers with
the `json` language tag, as in `` ```json\n...\n``` ``. -/
def wrapFence (t : List Char) : List Char :=
  "```json".toList ++ '\n' :: (t ++ '\n' :: "```".toList)

/-- Which records survive a batch save that starts at insert-call
number `k` under the given fault schedule: one insert call per record,
faulted records dropped. -/
def keptByFaults (faults : Nat → Bool) : Nat → List NPC → List NPC
  | _, [] => []
  | k, npc :: rest =>
    if faults k then keptByFaults faults (k + 1) rest
    else npc :: keptByFaults faults (k + 1) rest

/-- The individual-kind documents for a record list, with ids assigned
consecutively from `i`. -/
def individualDocs (now : Nat) : Nat → List NPC → List StoreDoc
  | _, [] => []
  | i, npc :: rest => .individual i now npc :: individualDocs now (i + 1) rest

/-- The list of `count` consecutive ids starting at `s`. -/
def idsFrom : Nat → Nat → List Nat
  | _, 0 => []
  | s, n + 1 => s :: idsFrom (s + 1) n

/-- Number of collection-kind documents among the stored documents. -/
def countCollections (docs : List StoreDoc) : Nat :=
  docs.countP (fun d => match d with
    | .collection _ _ _ _ _ => true
    | .individual _ _ _ => false)

/-! ### Concrete test doubles used in witnesses and counterexamples -/

/-- A JSON parser double that fails on every input (any malformed
oracle text). -/
def jlNone : List Char → Option JObject := fun _ => none

/-- An oracle double whose every call raises a transport fault. -/
def oracleDown : Nat → OracleResult := fun _ => .failure "service unavailable"

/-- A complete, valid record object as `json.loads` would return it. -/
def goodObj : JObject :=
  [("Name", .jStr "Ara"), ("Age", .jNum 30), ("Species", .jStr "Human"),
   ("PhysicalDescription", .jStr "tall"), ("PersonalityDescription", .jStr "kind"),
   ("ResidentDistrict", .jStr "Docks")]

/-- The record `goodObj` validates to. -/
def araNpc : NPC :=
  { Name := "Ara", Age := 30, Species := "Human", PhysicalDescription := "tall",
    PersonalityDescription := "kind", ResidentDistrict := "Docks" }

/-- A record object with a null field (schema-validation failure). -/
def badObj : JObject := [("Name", .jNull)]

/-- A JSON parser double: the text "GOOD" parses to the valid record
object, everything else fails to parse. -/
def jlGood : List Char → Option JObject :=
  fun s => if s == "GOOD".toList then some goodObj else none

/-- A JSON parser double: the text "BAD" parses to the null-field
object, everything else fails to parse. -/
def jlBad : List Char → Option JObject :=
  fun s => if s == "BAD".toList then some badObj else none

/-- An oracle double that always returns the parsable text "GOOD". -/
def oracleGoodAll : Nat → OracleResult := fun _ => .ok "GOOD".toList

/-- An oracle double whose first call returns parsable text and whose
later calls raise transport faults. -/
def oracleOneGood : Nat → OracleResult :=
  fun i => if i == 0 then .ok "GOOD".toList else .failure "oracle unavailable"

/-- A record constructor for batch examples. -/
def mkNpc (nm : String) : NPC :=
  { Name := nm, Age := 30, Species := "Human", PhysicalDescription := "tall",
    PersonalityDescription := "kind", ResidentDistrict := "Docks" }

/-! ### General lemmas -/

lemma model_dump_invariant (npc : NPC) : recordInvariant npc.model_dump :=
  ⟨⟨.jStr npc.Name, rfl, by simp⟩, ⟨.jNum npc.Age, rfl, by simp⟩,
   ⟨.jStr npc.Species, rfl, by simp⟩, ⟨.jStr npc.PhysicalDescription, rfl, by simp⟩,
   ⟨.jStr npc.PersonalityDescription, rfl, by simp⟩,
   ⟨.jStr npc.ResidentDistrict, rfl, by simp⟩⟩

lemma generate_multiple_eq_filterMap (json_loads : List Char → Option JObject)
    (oracle : Nat → OracleResult) (count : Nat) (sp dp ar : Option String) :
    generate_multiple_npcs json_loads oracle count sp dp ar
      = (List.range count).filterMap (fun i => generate_npc json_loads (oracle i) sp dp ar) := by
  induction count with
  | zero => rfl
  | succ n ih =>
    unfold generate_multiple_npcs at ih ⊢
    rw [List.range_succ, List.foldl_append, ih, List.filterMap_append]
    simp only [List.foldl_cons, List.foldl_nil, List.filterMap_cons, List.filterMap_nil]
    cases hg : generate_npc json_loads (oracle n) sp dp ar <;> simp [hg]

lemma isPrefixOf_append_self {α : Type} [BEq α] [LawfulBEq α] (l₁ l₂ : List α) :
    l₁.isPrefixOf (l₁ ++ l₂) = true := by
  induction l₁ with
  | nil => simp [List.isPrefixOf]
  | cons a as ih => simp [List.isPrefixOf_cons₂, ih]

lemma isSuffixOf_append_self {α : Type} [BEq α] [LawfulBEq α] (l₁ l₂ : List α) :
    l₂.isSuffixOf (l₁ ++ l₂) = true := by
  simp only [List.isSuffixOf, List.reverse_append]
  exact isPrefixOf_append_self _ _

lemma pyStrip_sandwich (a b : Char) (r : List Char)
    (ha : a.isWhitespace = false) (hb : b.isWhitespace = false) :
    pyStrip (a :: (r ++ [b])) = a :: (r ++ [b]) := by
  unfold pyStrip
  rw [List.dropWhile_cons_of_neg (by simp [ha])]
  rw [show (a :: (r ++ [b])).reverse = b :: (r.reverse ++ [a]) by simp]
  rw [List.dropWhile_cons_of_neg (by simp [hb])]
  rw [show (b :: (r.reverse ++ [a])).reverse = a :: (r ++ [b]) by simp]

lemma pyStrip_drop_newline_ends (t : List Char) :
    pyStrip ('\n' :: (t ++ ['\n'])) = pyStrip t := by
  unfold pyStrip
  rw [List.dropWhile_cons_of_pos (by decide)]
  rw [List.dropWhile_append]
  by_cases h : (List.dropWhile Char.isWhitespace t).isEmpty = true
  · rw [if_pos h]
    rw [List.isEmpty_iff.mp h]
    rw [show List.dropWhile Char.isWhitespace ['\n'] = [] from by decide]
  · rw [if_neg h]
    rw [List.reverse_append]
    rw [show (['\n'] : List Char).reverse = ['\n'] from rfl]
    rw [show (['\n'] : List Char) ++ (List.dropWhile Char.isWhitespace t).reverse
          = '\n' :: (List.dropWhile Char.isWhitespace t).reverse from rfl]
    rw [List.dropWhile_cons_of_pos (by decide)]

lemma clean_content_wrapFence (t : List Char) :
    clean_content (wrapFence t) = pyStrip t := by
  have hshape : wrapFence t
      = btick :: (("``json".toList ++ '\n' :: (t ++ '\n' :: [btick, btick])) ++ [btick]) := by
    unfold wrapFence
    rw [show "```json".toList = btick :: "``json".toList from rfl,
        show "```".toList = [btick, btick, btick] from rfl]
    simp
  have h0 : pyStrip (wrapFence t) = wrapFence t := by
    rw [hshape]; exact pyStrip_sandwich btick btick _ (by decide) (by decide)
  have h1 : "```json".toList.isPrefixOf (wrapFence t) = true := by
    unfold wrapFence; exact isPrefixOf_append_self _ _
  have h2 : List.drop 7 (wrapFence t) = '\n' :: (t ++ '\n' :: "```".toList) := by
    unfold wrapFence
    rw [show (7 : Nat) = ("```json".toList).length from rfl]
    exact List.drop_left _ _
  have hsplit : '\n' :: (t ++ '\n' :: "```".toList)
      = ('\n' :: (t ++ ['\n'])) ++ "```".toList := by simp
  have h3 : "```".toList.isSuffixOf ('\n' :: (t ++ '\n' :: "```".toList)) = true := by
    rw [hsplit]; exact isSuffixOf_append_self _ _
  have h4 : ('\n' :: (t ++ '\n' :: "```".toList)).take
        (('\n' :: (t ++ '\n' :: "```".toList)).length - 3) = '\n' :: (t ++ ['\n']) := by
    rw [hsplit, List.length_append, show ("```".toList).length = 3 from rfl,
        Nat.add_sub_cancel]
    exact List.take_left _ _
  simp only [clean_content, h0, h1, if_true, h2, h3, h4]
  exact pyStrip_drop_newline_ends t

lemma clean_content_of_object (t r : List Char)
    (hr : pyStrip t = lbrace :: (r ++ [rbrace])) :
    clean_content t = pyStrip t := by
  have hpre : "```json".toList.isPrefixOf (pyStrip t) = false := by
    rw [hr, show "```json".toList = btick :: "``json".toList from rfl,
        List.isPrefixOf_cons₂]
    simp [show (btick == lbrace) = false from by decide]
  have hsuf : "```".toList.isSuffixOf (pyStrip t) = false := by
    rw [hr]
    simp only [List.isSuffixOf]
    rw [show (lbrace :: (r ++ [rbrace])).reverse = rbrace :: (r.reverse ++ [lbrace]) from by simp,
        show ("```".toList).reverse = btick :: [btick, btick] from rfl,
        List.isPrefixOf_cons₂]
    simp [show (btick == rbrace) = false from by decide]
  have hid : pyStrip (pyStrip t) = pyStrip t := by
    rw [hr]; exact pyStrip_sandwich lbrace rbrace r (by decide) (by decide)
  simp only [clean_content, hpre, hsuf, Bool.false_eq_true, if_false, hid]

lemma save_npcs_batch_loop (now : Nat) (npcs : List NPC) (st : MongoState) (ids : List Nat) :
    npcs.foldl (fun acc npc =>
      match save_npc acc.1 now npc with
      | (st', some id) => (st', acc.2 ++ [id])
      | (st', none) => (st', acc.2)) (st, ids)
    = (⟨st.docs ++ individualDocs now st.docs.length (keptByFaults st.faults st.calls npcs),
        st.faults, st.calls + npcs.length⟩,
       ids ++ idsFrom st.docs.length (keptByFaults st.faults st.calls npcs).length) := by
  induction npcs generalizing st ids with
  | nil => simp [individualDocs, keptByFaults, idsFrom]
  | cons npc rest ih =>
    simp only [List.foldl_cons]
    by_cases hf : st.faults st.calls = true
    · rw [show save_npc st now npc = ({ st with calls := st.calls + 1 }, none) from by
        simp [save_npc, insert_one, hf]]
      rw [ih]
      simp [keptByFaults, hf, Nat.add_comm, Nat.add_assoc, Nat.add_left_comm]
    · rw [show save_npc st now npc
          = ({ st with
                docs := st.docs ++ [StoreDoc.individual st.docs.length now npc],
                calls := st.calls + 1 },
             some st.docs.length) from by
        simp [save_npc, insert_one, hf]]
      rw [ih]
      simp only [List.length_append, List.length_cons, List.length_nil]
      rw [show keptByFaults st.faults st.calls (npc :: rest)
            = npc :: keptByFaults st.faults (st.calls + 1) rest from by
        simp [keptByFaults, hf]]
      simp [individualDocs, idsFrom, Nat.add_comm, Nat.add_assoc, Nat.add_left_comm,
        List.append_assoc]

lemma save_npcs_batch_spec (st : MongoState) (now : Nat) (npcs : List NPC) :
    save_npcs_batch st now npcs
      = (⟨st.docs ++ individualDocs now st.docs.length (keptByFaults st.faults st.calls npcs),
          st.faults, st.calls + npcs.length⟩,
         idsFrom st.docs.length (keptByFaults st.faults st.calls npcs).length) := by
  unfold save_npcs_batch
  rw [save_npcs_batch_loop]
  simp

lemma keptByFaults_of_no_faults (faults : Nat → Bool) (hnf : ∀ k, faults k = false) :
    ∀ (k : Nat) (npcs : List NPC), keptByFaults faults k npcs = npcs := by
  intro k npcs
  induction npcs generalizing k with
  | nil => rfl
  | cons npc rest ih => simp [keptByFaults, hnf k, ih]

lemma keptByFaults_length_le (faults : Nat → Bool) :
    ∀ (k : Nat) (npcs : List NPC), (keptByFaults faults k npcs).length ≤ npcs.length := by
  intro k npcs
  induction npcs generalizing k with
  | nil => simp [keptByFaults]
  | cons npc rest ih =>
    by_cases hf : faults k = true
    · rw [show keptByFaults faults k (npc :: rest) = keptByFaults faults (k + 1) rest from by
        simp [keptByFaults, hf]]
      exact Nat.le_succ_of_le (ih _)
    · rw [show keptByFaults faults k (npc :: rest)
            = npc :: keptByFaults faults (k + 1) rest from by
        simp [keptByFaults, hf]]
      exact Nat.succ_le_succ (ih _)

lemma idsFrom_length (s n : Nat) : (idsFrom s n).length = n := by
  induction n generalizing s with
  | zero => rfl
  | succ m ih => simp [idsFrom, ih]

lemma individualDocs_length (now : Nat) :
    ∀ (i : Nat) (npcs : List NPC), (individualDocs now i npcs).length = npcs.length := by
  intro i npcs
  induction npcs generalizing i with
  | nil => rfl
  | cons npc rest ih => simp [individualDocs, ih]

lemma countCollections_individualDocs (now : Nat) :
    ∀ (i : Nat) (npcs : List NPC), countCollections (individualDocs now i npcs) = 0 := by
  intro i npcs
  induction npcs generalizing i with
  | nil => rfl
  | cons npc rest ih =>
    have h := ih (i + 1)
    simp [individualDocs, countCollections, List.countP_cons] at h ⊢
    exact h

lemma dapr_generate_eq (json_loads : List Char → Option JObject)
    (oracle : Nat → OracleResult) (req : PbGenerationRequest) :
    dapr_generate json_loads oracle req
      = generate_multiple_npcs json_loads oracle req.count
          req.species_preference req.district_preference req.age_range := by
  unfold dapr_generate
  by_cases h : req.count = 1
  · rw [if_pos (by simp [h])]
    rw [generate_multiple_eq_filterMap, h,
        show List.range 1 = [0] from rfl]
    cases hg : generate_npc json_loads (oracle 0)
        req.species_preference req.district_preference req.age_range <;>
      simp [hg, List.filterMap_cons]
  · rw [if_neg (by simp [h])]

/-! ### Claim theorems -/

/-- C1: for every generation request with `count = n ≥ 1`,
`generate_multiple_npcs` invokes `generate_npc` exactly `n` times
sequentially with no early exit (one call per index of `range n`,
successes collected in order), returns a list of length `k ≤ n`, and
every element satisfies the CharacterRecord invariant that all six
fields are present and non-null. -/
theorem generateMany_count_and_invariant (json_loads : List Char → Option JObject)
    (oracle : Nat → OracleResult) (n : Nat) (sp dp ar : Option String) (_h : 1 ≤ n) :
    generate_multiple_npcs json_loads oracle n sp dp ar
        = (List.range n).filterMap (fun i => generate_npc json_loads (oracle i) sp dp ar)
      ∧ (generate_multiple_npcs json_loads oracle n sp dp ar).length ≤ n
      ∧ ∀ npc ∈ generate_multiple_npcs json_loads oracle n sp dp ar,
          recordInvariant npc.model_dump := by
  refine ⟨generate_multiple_eq_filterMap json_loads oracle n sp dp ar, ?_,
    fun npc _ => model_dump_invariant npc⟩
  rw [generate_multiple_eq_filterMap]
  calc ((List.range n).filterMap fun i => generate_npc json_loads (oracle i) sp dp ar).length
      ≤ (List.range n).length := List.length_filterMap_le _ _
    _ = n := List.length_range n

theorem generateMany_count_and_invariant_witness :
    (generate_multiple_npcs jlNone oracleDown 2 none none none).length ≤ 2 :=
  (generateMany_count_and_invariant jlNone oracleDown 2 none none none (by decide)).2.1

/-- C3: the prompt builder is a pure function of the three preference
parameters, equal to the fixed framing followed by one constraint line
per supplied (truthy) preference in the fixed order species, district,
age range, followed by the fixed closing instruction; the request with
only `speciesPreference = "Elf"` yields a prompt containing
"Species should be: Elf" and neither a district nor an age line, and
the empty request yields none of the three lines. -/
theorem prompt_constraint_lines (sp dp ar : Option String) :
    generate_npc_prompt sp dp ar
        = promptBase
          ++ (if truthy sp then "\n- Species should be: " ++ sp.getD "" else "")
          ++ (if truthy dp then "\n- Resident District should be: " ++ dp.getD "" else "")
          ++ (if truthy ar then "\n- Age should be in range: " ++ ar.getD "" else "")
          ++ "\n\nReturn ONLY the JSON object, no additional text."
      ∧ strContains (generate_npc_prompt (some "Elf") none none) "Species should be: Elf" = true
      ∧ strContains (generate_npc_prompt (some "Elf") none none) "Resident District should be: " = false
      ∧ strContains (generate_npc_prompt (some "Elf") none none) "Age should be in range: " = false
      ∧ strContains (generate_npc_prompt none none none) "Species should be: " = false
      ∧ strContains (generate_npc_prompt none none none) "Resident District should be: " = false
      ∧ strContains (generate_npc_prompt none none none) "Age should be in range: " = false := by
  refine ⟨?_, by decide, by decide, by decide, by decide, by decide, by decide⟩
  cases hsp : truthy sp <;> cases hdp : truthy dp <;> cases har : truthy ar <;>
    simp [generate_npc_prompt, hsp, hdp, har, String.append_assoc]

/-- C10: an optional preference supplied as the empty string is falsy
in Python, so the prompt builder emits no constraint line for it and
returns a prompt byte-identical to the one for the same request with
that preference absent. -/
theorem empty_string_preference_unconstrained (sp dp ar : Option String) :
    generate_npc_prompt (some "") dp ar = generate_npc_prompt none dp ar
      ∧ generate_npc_prompt sp (some "") ar = generate_npc_prompt sp none ar
      ∧ generate_npc_prompt sp dp (some "") = generate_npc_prompt sp dp none := by
  refine ⟨?_, ?_, ?_⟩ <;> simp [generate_npc_prompt, truthy]

/-- C4: for any oracle text `t` whose stripped form is a JSON object
(it starts with a left brace and ends with a right brace), the
fence-stripping step of `generate_npc` makes the wrapped form
`` ```json\n<t>\n``` `` clean up to exactly the same string as the bare
`t`, so the two parse to exactly the same record whatever the JSON
parser returns. -/
theorem fence_wrapped_parses_identically (json_loads : List Char → Option JObject)
    (t : List Char) (sp dp ar : Option String) (r : List Char)
    (hr : pyStrip t = lbrace :: (r ++ [rbrace])) :
    clean_content (wrapFence t) = clean_content t
      ∧ generate_npc json_loads (.ok (wrapFence t)) sp dp ar
          = generate_npc json_loads (.ok t) sp dp ar := by
  have hc : clean_content (wrapFence t) = clean_content t :=
    (clean_content_wrapFence t).trans (clean_content_of_object t r hr).symm
  exact ⟨hc, by simp only [generate_npc, hc]⟩

theorem fence_wrapped_parses_identically_witness :
    clean_content (wrapFence "\x7b\x7d".toList) = clean_content "\x7b\x7d".toList :=
  (fence_wrapped_parses_identically jlNone "\x7b\x7d".toList none none none []
    (by decide)).1

/-- C5 as amended: on an oracle transport/auth/rate-limit fault, on a
parse failure, and on a schema-validation failure `generate_npc`
returns `None` without any retry (it consumes exactly one oracle call),
and the failure kinds are NOT distinguishable in the returned value:
the transport-fault result equals the malformed-output result. -/
theorem generateOne_failures_return_none (json_loads : List Char → Option JObject)
    (sp dp ar : Option String) (msg : String) (t u : List Char) (o : JObject)
    (hparse : json_loads (clean_content t) = none)
    (hval : json_loads (clean_content u) = some o)
    (hvo : NPC.validate o = none) :
    generate_npc json_loads (.failure msg) sp dp ar = none
      ∧ generate_npc json_loads (.ok t) sp dp ar = none
      ∧ generate_npc json_loads (.ok u) sp dp ar = none
      ∧ generate_npc json_loads (.failure msg) sp dp ar
          = generate_npc json_loads (.ok t) sp dp ar := by
  refine ⟨rfl, ?_, ?_, ?_⟩ <;> simp [generate_npc, hparse, hval, hvo]

theorem generateOne_failures_return_none_witness :
    generate_npc jlBad (.failure "rate limited") none none none = none :=
  (generateOne_failures_return_none jlBad none none none "rate limited"
    "not json".toList "BAD".toList badObj (by decide) (by decide) (by decide)).1

/-- C5 counterexample to the claim as stated: the caller of
`generate_npc` receives the same value (`None`) after an oracle
transport fault as after malformed oracle output, so the two failure
kinds are not distinguishable to the caller; the code has no
`MalformedOutput`/`OracleUnavailable` discrimination in its return
type. -/
theorem generateOne_failure_kinds_indistinguishable :
    generate_npc jlNone (.failure "oracle transport fault") none none none
        = generate_npc jlNone (.ok "this is not json".toList) none none none
      ∧ generate_npc jlNone (.failure "oracle transport fault") none none none = none := by
  exact ⟨rfl, rfl⟩

/-- C6: for every input list, `save_npcs_batch` never raises (it is a
total function into a state/id-list pair): it issues one `save_npc`
insert call per record in order (the final call counter grows by
exactly the list length), skips each record whose individual save
fails, and returns exactly the ids of the saves that succeeded —
possibly the empty sequence; in particular with 3 records where only
the 2nd save fails it returns exactly 2 saved ids. -/
theorem saveBatch_skips_failures_returns_successes (st : MongoState) (now : Nat)
    (npcs : List NPC) :
    save_npcs_batch st now npcs
        = (⟨st.docs ++ individualDocs now st.docs.length (keptByFaults st.faults st.calls npcs),
            st.faults, st.calls + npcs.length⟩,
           idsFrom st.docs.length (keptByFaults st.faults st.calls npcs).length)
      ∧ (save_npcs_batch st now npcs).2.length ≤ npcs.length
      ∧ (save_npcs_batch ⟨[], fun k => k == 1, 0⟩ 0 [mkNpc "A", mkNpc "B", mkNpc "C"]).2
          = [0, 1] := by
  refine ⟨save_npcs_batch_spec st now npcs, ?_, by decide⟩
  rw [save_npcs_batch_spec]
  simp only [idsFrom_length]
  exact keptByFaults_length_le _ _ _

/-- C2: whenever generation yields zero records for a request, the
synchronous endpoint returns a 500 error body with "Failed to generate
any NPCs" and the asynchronous responder publishes a `success = false`
envelope, and in both cases the store is returned unchanged: no
individual save and no collection save is attempted. -/
theorem zero_records_overall_failure_no_storage (json_loads : List Char → Option JObject)
    (oracle : Nat → OracleResult) (n : Nat) (sp dp ar : Option String)
    (st : MongoState) (now : Nat) (rid rtopic : String)
    (h : generate_multiple_npcs json_loads oracle n sp dp ar = []) :
    app_generate_npcs json_loads oracle ⟨n, sp, dp, ar⟩ st now
        = (.err 500 "Failed to generate any NPCs", st)
      ∧ (npc_generation_request_handler json_loads oracle
            ⟨rid, rtopic, ⟨n, sp, dp, ar⟩⟩ st now).store = st
      ∧ (npc_generation_request_handler json_loads oracle
            ⟨rid, rtopic, ⟨n, sp, dp, ar⟩⟩ st now).published
          = [(rtopic, ⟨rid, { success := false, generated_count := 0, requested_count := n,
                              error := some "Failed to generate any NPCs" }⟩)] := by
  have hd : dapr_generate json_loads oracle ⟨n, sp, dp, ar⟩ = [] := by
    rw [dapr_generate_eq]; exact h
  refine ⟨?_, ?_, ?_⟩ <;>
    simp [app_generate_npcs, npc_generation_request_handler, h, hd]

theorem zero_records_overall_failure_no_storage_witness :
    app_generate_npcs jlNone oracleDown ⟨1, none, none, none⟩ ⟨[], fun _ => false, 0⟩ 0
      = (.err 500 "Failed to generate any NPCs", ⟨[], fun _ => false, 0⟩) :=
  (zero_records_overall_failure_no_storage jlNone oracleDown 1 none none none
    ⟨[], fun _ => false, 0⟩ 0 "req" "topic" (by decide)).1

/-- C8: saving a record via `save_npc` and then fetching via
`get_all_npcs` yields — appended to whatever was listed before — a dict
with exactly the six record fields unchanged, the storage metadata
(`_id`, `_created_at`, `_type`) added at save time being stripped by
the listing. -/
theorem saveOne_listAll_roundtrip (st : MongoState) (now : Nat) (r : NPC)
    (h : st.faults st.calls = false) :
    (save_npc st now r).2 = some st.docs.length
      ∧ get_all_npcs (save_npc st now r).1 = get_all_npcs st ++ [r.model_dump] := by
  unfold save_npc insert_one
  rw [if_neg (by simp [h])]
  refine ⟨rfl, ?_⟩
  simp [get_all_npcs, List.filterMap_append]

theorem saveOne_listAll_roundtrip_witness :
    get_all_npcs (save_npc ⟨[], fun _ => false, 0⟩ 5 araNpc).1
      = get_all_npcs ⟨[], fun _ => false, 0⟩ ++ [araNpc.model_dump] :=
  (saveOne_listAll_roundtrip ⟨[], fun _ => false, 0⟩ 5 araNpc rfl).2

/-- C7 counterexample to the claim as stated: on the asynchronous
path, a multi-record generation call (`count = 2`) that succeeds with
exactly one record (`k = 1 ≥ 1`) writes NO collection-kind document —
the store ends with only the single individual write and the response
carries no collection id — contradicting "for every multi-record
generation call that succeeds with at least one record, exactly one
collection-kind document is written". -/
theorem collection_not_written_single_success_counterexample :
    (npc_generation_request_handler jlGood oracleOneGood
        ⟨"req-1", "resp-topic", ⟨2, none, none, none⟩⟩ ⟨[], fun _ => false, 0⟩ 0).store.docs
        = [.individual 0 0 araNpc]
      ∧ countCollections (npc_generation_request_handler jlGood oracleOneGood
          ⟨"req-1", "resp-topic", ⟨2, none, none, none⟩⟩ ⟨[], fun _ => false, 0⟩ 0).store.docs
          = 0
      ∧ (npc_generation_request_handler jlGood oracleOneGood
          ⟨"req-1", "resp-topic", ⟨2, none, none, none⟩⟩ ⟨[], fun _ => false, 0⟩ 0).published
          = [("resp-topic", ⟨"req-1",
              { success := true, npcs := [araNpc.toPb], generated_count := 1,
                requested_count := 2, individual_files := [0],
                collection_file := none }⟩)] := by
  exact ⟨by decide, by decide, by decide⟩

/-- C7 as amended: when a generation call succeeds with `k ≥ 1`
records, the synchronous endpoint writes exactly one collection-kind
document containing all `k` records verbatim, distinct from and in
addition to the `k` individual per-record writes (no deduplication),
and returns all `k` individual ids and the collection id; the
asynchronous handler does the same only when `k ≥ 2`, and with `k = 1`
writes the individual record but no collection document. -/
theorem collection_written_sync_geq1_async_geq2 (json_loads : List Char → Option JObject)
    (oracle : Nat → OracleResult) (n : Nat) (sp dp ar : Option String)
    (st : MongoState) (now : Nat) (rid rtopic : String) (npcs : List NPC)
    (hg : generate_multiple_npcs json_loads oracle n sp dp ar = npcs)
    (hnf : ∀ k, st.faults k = false) (hne : npcs ≠ []) :
    app_generate_npcs json_loads oracle ⟨n, sp, dp, ar⟩ st now
        = (.ok npcs.length n npcs (idsFrom st.docs.length npcs.length)
             (st.docs.length + npcs.length),
           ⟨st.docs ++ individualDocs now st.docs.length npcs
              ++ [.collection (st.docs.length + npcs.length) now now npcs.length npcs],
            st.faults, st.calls + npcs.length + 1⟩)
      ∧ countCollections (app_generate_npcs json_loads oracle ⟨n, sp, dp, ar⟩ st now).2.docs
          = countCollections st.docs + 1
      ∧ (1 < npcs.length →
          (npc_generation_request_handler json_loads oracle
              ⟨rid, rtopic, ⟨n, sp, dp, ar⟩⟩ st now).store.docs
            = st.docs ++ individualDocs now st.docs.length npcs
                ++ [.collection (st.docs.length + npcs.length) now now npcs.length npcs]
          ∧ (npc_generation_request_handler json_loads oracle
                ⟨rid, rtopic, ⟨n, sp, dp, ar⟩⟩ st now).published
              = [(rtopic, ⟨rid, { success := true, npcs := npcs.map NPC.toPb,
                                    generated_count := npcs.length, requested_count := n,
                                    individual_files := idsFrom st.docs.length npcs.length,
                                    collection_file := some (st.docs.length + npcs.length) }⟩)])
      ∧ (npcs.length = 1 →
          (npc_generation_request_handler json_loads oracle
              ⟨rid, rtopic, ⟨n, sp, dp, ar⟩⟩ st now).store.docs
            = st.docs ++ individualDocs now st.docs.length npcs
          ∧ countCollections (npc_generation_request_handler json_loads oracle
              ⟨rid, rtopic, ⟨n, sp, dp, ar⟩⟩ st now).store.docs = countCollections st.docs
          ∧ (npc_generation_request_handler json_loads oracle
                ⟨rid, rtopic, ⟨n, sp, dp, ar⟩⟩ st now).published
              = [(rtopic, ⟨rid, { success := true, npcs := npcs.map NPC.toPb,
                                    generated_count := npcs.length, requested_count := n,
                                    individual_files := idsFrom st.docs.length npcs.length,
                                    collection_file := none }⟩)]) := by
  have hkept : keptByFaults st.faults st.calls npcs = npcs :=
    keptByFaults_of_no_faults st.faults hnf st.calls npcs
  have hbatch : save_npcs_batch st now npcs
      = (⟨st.docs ++ individualDocs now st.docs.length npcs, st.faults,
          st.calls + npcs.length⟩,
         idsFrom st.docs.length npcs.length) := by
    rw [save_npcs_batch_spec, hkept]
  have hlen : (individualDocs now st.docs.length npcs).length = npcs.length :=
    individualDocs_length now st.docs.length npcs
  have hcoll : save_npcs_collection
        (⟨st.docs ++ individualDocs now st.docs.length npcs, st.faults,
          st.calls + npcs.length⟩ : MongoState) now npcs
      = (⟨st.docs ++ individualDocs now st.docs.length npcs
            ++ [.collection (st.docs.length + npcs.length) now now npcs.length npcs],
          st.faults, st.calls + npcs.length + 1⟩,
         some (st.docs.length + npcs.length)) := by
    unfold save_npcs_collection insert_one
    rw [if_neg (by simp [hnf])]
    simp [List.length_append, hlen, List.append_assoc]
  have hemp : ¬ (npcs.isEmpty = true) := by simp [List.isEmpty_iff, hne]
  have hsync : app_generate_npcs json_loads oracle ⟨n, sp, dp, ar⟩ st now
      = (.ok npcs.length n npcs (idsFrom st.docs.length npcs.length)
           (st.docs.length + npcs.length),
         ⟨st.docs ++ individualDocs now st.docs.length npcs
            ++ [.collection (st.docs.length + npcs.length) now now npcs.length npcs],
          st.faults, st.calls + npcs.length + 1⟩) := by
    unfold app_generate_npcs
    rw [hg, if_neg hemp, hbatch]
    simp only [hcoll]
  refine ⟨hsync, ?_, ?_, ?_⟩
  · rw [hsync]
    have h0 := countCollections_individualDocs now st.docs.length npcs
    simp only [countCollections, List.countP_append] at h0 ⊢
    simp [h0, List.countP_cons]
  · intro h1
    constructor
    · unfold npc_generation_request_handler
      simp only []
      rw [dapr_generate_eq, hg, if_neg hemp, hbatch]
      simp only [if_pos h1, hcoll]
    · unfold npc_generation_request_handler
      simp only []
      rw [dapr_generate_eq, hg, if_neg hemp, hbatch]
      simp only [if_pos h1, hcoll]
  · intro h1
    have hn1 : ¬ (1 < npcs.length) := by omega
    refine ⟨?_, ?_, ?_⟩
    · unfold npc_generation_request_handler
      simp only []
      rw [dapr_generate_eq, hg, if_neg hemp, hbatch]
      simp only [if_neg hn1]
    · unfold npc_generation_request_handler
      simp only []
      rw [dapr_generate_eq, hg, if_neg hemp, hbatch]
      simp only [if_neg hn1]
      have h0 := countCollections_individualDocs now st.docs.length npcs
      simp only [countCollections, List.countP_append] at h0 ⊢
      simp [h0]
    · unfold npc_generation_request_handler
      simp only []
      rw [dapr_generate_eq, hg, if_neg hemp, hbatch]
      simp only [if_neg hn1]

theorem collection_written_sync_geq1_async_geq2_witness :
    app_generate_npcs jlGood oracleGoodAll ⟨2, some "Human", none, none⟩
        ⟨[], fun _ => false, 0⟩ 0
      = (.ok 2 2 [araNpc, araNpc] (idsFrom 0 2) (0 + 2),
         ⟨[] ++ individualDocs 0 0 [araNpc, araNpc]
            ++ [.collection (0 + 2) 0 0 2 [araNpc, araNpc]],
          fun _ => false, 0 + 2 + 1⟩) :=
  (collection_written_sync_geq1_async_geq2 jlGood oracleGoodAll 2 (some "Human") none none
    ⟨[], fun _ => false, 0⟩ 0 "req" "topic" [araNpc, araNpc]
    (by decide) (fun _ => rfl) (by decide)).1

/-- C9: for every decoded asynchronous envelope (absent storage
faults), the responder publishes exactly one result envelope, to the
envelope's response topic, tagged with the original request id; when at
least one record was generated the response has `success = true` and
carries every generated record (transport-shaped), the saved-id list,
and the collection id if one was created; when zero records were
generated it has `success = false` with error "Failed to generate any
NPCs". -/
theorem responder_publishes_exactly_one (json_loads : List Char → Option JObject)
    (oracle : Nat → OracleResult) (msg : GenerateNPCTopicMessage)
    (st : MongoState) (now : Nat) (npcs : List NPC)
    (hg : dapr_generate json_loads oracle msg.request = npcs)
    (hnf : ∀ k, st.faults k = false) :
    ∃ resp : NPCGenerationResponse,
      (npc_generation_request_handler json_loads oracle msg st now).published
          = [(msg.response_topic, ⟨msg.request_id, resp⟩)]
      ∧ (npcs ≠ [] →
          resp.success = true
          ∧ resp.npcs = npcs.map NPC.toPb
          ∧ resp.generated_count = npcs.length
          ∧ resp.individual_files = idsFrom st.docs.length npcs.length
          ∧ resp.collection_file
              = if 1 < npcs.length then some (st.docs.length + npcs.length) else none)
      ∧ (npcs = [] →
          resp.success = false ∧ resp.generated_count = 0
          ∧ resp.error = some "Failed to generate any NPCs") := by
  by_cases hne : npcs = []
  · refine ⟨{ success := false, generated_count := 0,
              requested_count := msg.request.count,
              error := some "Failed to generate any NPCs" }, ?_, ?_, ?_⟩
    · unfold npc_generation_request_handler
      simp only []
      rw [hg, hne]
      rfl
    · intro h; exact absurd hne h
    · intro _; exact ⟨rfl, ⟨rfl, rfl⟩⟩
  · have hkept : keptByFaults st.faults st.calls npcs = npcs :=
      keptByFaults_of_no_faults st.faults hnf st.calls npcs
    have hbatch : save_npcs_batch st now npcs
        = (⟨st.docs ++ individualDocs now st.docs.length npcs, st.faults,
            st.calls + npcs.length⟩,
           idsFrom st.docs.length npcs.length) := by
      rw [save_npcs_batch_spec, hkept]
    have hlen : (individualDocs now st.docs.length npcs).length = npcs.length :=
      individualDocs_length now st.docs.length npcs
    have hcoll : save_npcs_collection
          (⟨st.docs ++ individualDocs now st.docs.length npcs, st.faults,
            st.calls + npcs.length⟩ : MongoState) now npcs
        = (⟨st.docs ++ individualDocs now st.docs.length npcs
              ++ [.collection (st.docs.length + npcs.length) now now npcs.length npcs],
            st.faults, st.calls + npcs.length + 1⟩,
           some (st.docs.length + npcs.length)) := by
      unfold save_npcs_collection insert_one
      rw [if_neg (by simp [hnf])]
      simp [List.length_append, hlen, List.append_assoc]
    have hemp : ¬ (npcs.isEmpty = true) := by simp [List.isEmpty_iff, hne]
    by_cases h1 : 1 < npcs.length
    · refine ⟨{ success := true, npcs := npcs.map NPC.toPb,
                generated_count := npcs.length, requested_count := msg.request.count,
                individual_files := idsFrom st.docs.length npcs.length,
                collection_file := some (st.docs.length + npcs.length) }, ?_, ?_, ?_⟩
      · unfold npc_generation_request_handler
        simp only []
        rw [hg, if_neg hemp, hbatch]
        simp only [if_pos h1, hcoll]
      · intro _
        exact ⟨rfl, rfl, rfl, rfl, by rw [if_pos h1]⟩
      · intro h; exact absurd h hne
    · refine ⟨{ success := true, npcs := npcs.map NPC.toPb,
                generated_count := npcs.length, requested_count := msg.request.count,
                individual_files := idsFrom st.docs.length npcs.length,
                collection_file := none }, ?_, ?_, ?_⟩
      · unfold npc_generation_request_handler
        simp only []
        rw [hg, if_neg hemp, hbatch]
        simp only [if_neg h1]
      · intro _
        exact ⟨rfl, rfl, rfl, rfl, by rw [if_neg h1]⟩
      · intro h; exact absurd h hne

theorem responder_publishes_exactly_one_witness :
    ∃ resp : NPCGenerationResponse,
      (npc_generation_request_handler jlGood oracleGoodAll
          ⟨"req-9", "resp-topic-9", ⟨2, none, none, none⟩⟩ ⟨[], fun _ => false, 0⟩ 0).published
        = [("resp-topic-9", ⟨"req-9", resp⟩)] := by
  obtain ⟨resp, h1, -, -⟩ := responder_publishes_exactly_one jlGood oracleGoodAll
    ⟨"req-9", "resp-topic-9", ⟨2, none, none, none⟩⟩ ⟨[], fun _ => false, 0⟩ 0
    [araNpc, araNpc] (by decide) (fun _ => rfl)
  exact ⟨resp, h1⟩

end Zenith
